import Mathlib

/-!
Verification development for the secops misconfiguration detection and
remediation repository.  The definitions below are shallow embeddings of
the Python source files:

  - `src/secops_app/services/finding_types.py` (type canonicalizer)
  - `src/secops_app/services/normalize.py` (finding normalization)
  - `src/secops_app/services/remediation_engine.py` (catalog loading,
    runbook resolution, runbook execution against the control plane)
  - `src/prescan_node/services/fixer.py` (IaC auto-fixer)
  - `src/prescan_node/main.py` (pipeline orchestration / deploy gating)

Python dictionaries are modelled as association lists, Python `str` as
Lean `String` (or `List Char` where character-level reasoning about
prefixes and suffixes is needed), JSON values carried in a finding's
`details_json` as a small tagged union `DVal` (details are modelled
post-parse: the `json.loads` / `isinstance(..., str)` input-format
handling of the source is not re-modelled).  External effects (OpenStack
SDK calls, filesystem access) are modelled as explicit oracle functions
handed to the embedded code, together with a trace of the calls made, so
that frame properties ("no call was attempted") are statable.
-/

/-- Python `dict.get(key)` over an association list (first binding wins,
mirroring dict key uniqueness). -/
def dictGet {α : Type} (k : String) : List (String × α) → Option α
  | [] => none
  | (a, b) :: rest => if k = a then some b else dictGet k rest

/-- Contiguous-sublist test over character lists (helper for `pyIn`). -/
def charsInfix (needle : List Char) : List Char → Bool
  | [] => needle.isEmpty
  | c :: rest => needle.isPrefixOf (c :: rest) || charsInfix needle rest

/-- Python substring test `needle in haystack`. -/
def pyIn (needle haystack : String) : Bool :=
  charsInfix needle.toList haystack.toList

/-- Python `s.startswith(pre)`. -/
def pyStartsWith (pre s : String) : Bool :=
  pre.toList.isPrefixOf s.toList

/-- Python truthiness of an optional string: `None` and the empty string
are falsy. -/
def truthyOptStr : Option String → Bool
  | none => false
  | some s => !(s = "")

/-- Python `"\n".join(lines)`. -/
def joinLines : List String → String
  | [] => ""
  | [x] => x
  | x :: xs => x ++ "\n" ++ joinLines xs

/-!
## Type canonicalizer (`src/secops_app/services/finding_types.py`)
-/

/-- The `CANONICAL_TYPES` table: canonical finding types mapped to their
human-readable descriptions. -/
def CANONICAL_TYPES : List (String × String) :=
  [("SG_WORLD_OPEN_SSH", "Security group allows SSH (tcp/22) from 0.0.0.0/0"),
   ("SG_WORLD_OPEN_RDP", "Security group allows RDP (tcp/3389) from 0.0.0.0/0"),
   ("SG_WORLD_OPEN_DB_PORT", "Security group allows database port from 0.0.0.0/0"),
   ("FIP_EXPOSED_INSTANCE", "Instance has floating IP attached (exposed to internet)"),
   ("PORT_SECURITY_DISABLED", "Neutron port has port_security_enabled=False"),
   ("INSTANCE_ERROR_STATE", "Instance is in ERROR state"),
   ("VOLUME_ERROR_STATE", "Volume is in error state"),
   ("OS_SSH_PASSWORD_AUTH_ENABLED", "SSH password authentication is enabled"),
   ("OS_SSH_ROOT_LOGIN_ENABLED", "SSH root login is enabled"),
   ("OS_FIREWALL_DISABLED", "Firewall (ufw/firewalld) is not running"),
   ("OS_SCAN_UNREACHABLE", "Instance is unreachable for OS baseline scan")]

/-- The `TYPE_ALIASES` table: legacy type to canonical type mapping. -/
def TYPE_ALIASES : List (String × String) :=
  [("SG_OPEN_SSH", "SG_WORLD_OPEN_SSH"),
   ("SG_OPEN_RDP", "SG_WORLD_OPEN_RDP"),
   ("NOVA_SERVER_ERROR", "INSTANCE_ERROR_STATE"),
   ("CINDER_VOLUME_ERROR", "VOLUME_ERROR_STATE")]

/-- The function `get_canonical_type`: a falsy (empty) raw type yields
`UNKNOWN`; a key of `CANONICAL_TYPES` is returned unchanged; otherwise the
alias table is consulted, defaulting to the input itself. -/
def get_canonical_type (raw_type : String) : String :=
  if raw_type = "" then "UNKNOWN"
  else if (dictGet raw_type CANONICAL_TYPES).isSome then raw_type
  else (dictGet raw_type TYPE_ALIASES).getD raw_type

/-!
## Finding model and normalization (`src/secops_app/services/normalize.py`)
-/

/-- A JSON-ish value carried in a finding's parsed `details_json`. -/
inductive DVal where
  | str (s : String)
  | num (n : Int)
  | arr (items : List DVal)

/-- Python truthiness of a details value: empty string, zero and the
empty list are falsy. -/
def dvalTruthy : DVal → Bool
  | .str s => !(s = "")
  | .num n => !(n = 0)
  | .arr l => !l.isEmpty

/-- Python `x or y` over two optional detail values (`None` and falsy
values fall through to the second operand; the second operand is
returned as-is). -/
def pyOrD (a b : Option DVal) : Option DVal :=
  match a with
  | some v => if dvalTruthy v then some v else b
  | none => b

/-- Python `str(...)` of a details value as it appears interpolated into
a message (integers render in decimal). -/
def dvalStr : DVal → String
  | .str s => s
  | .num n => toString n
  | .arr _ => "[...]"

/-- A finding as consumed by the remediation engine: the `ftype` and
`type` fields drive normalization; `details_json` (modelled post-parse)
and `resource_id` drive execution.  `none` models an absent field. -/
structure Finding where
  ftype : Option String
  typ : Option String
  details : List (String × DVal)
  resource_id : Option String

/-- The raw type extracted by `normalize_finding`: the `ftype` field if
present and truthy, else the `type` field if present and truthy, else
`UNKNOWN`. -/
def rawTypeOf (f : Finding) : String :=
  match f.ftype with
  | some s =>
    if s = "" then
      match f.typ with
      | some t => if t = "" then "UNKNOWN" else t
      | none => "UNKNOWN"
    else s
  | none =>
    match f.typ with
    | some t => if t = "" then "UNKNOWN" else t
    | none => "UNKNOWN"

/-- The `type` field of `normalize_finding`'s output: the canonical type
of the extracted raw type. -/
def canonicalTypeOf (f : Finding) : String :=
  get_canonical_type (rawTypeOf f)

/-!
## Runbook catalog and resolver
(`src/secops_app/services/remediation_engine.py`, `resolve_runbook`)
-/

/-- A loaded runbook definition, as read from the catalog by the
remediation engine (`runbook_def.get("finding_types", [])`,
`.get("aliases", [])`, `.get("params", {})`). -/
structure RunbookDef where
  finding_types : List String
  aliases : List String
  params : List (String × String)

/-- The loaded catalog: runbook ids mapped to definitions, in catalog
iteration (declaration) order. -/
abbrev Catalog := List (String × RunbookDef)

/-- The matching test of `resolve_runbook`'s loop body: the canonical
type is a member of the runbook's `finding_types` or of its `aliases`. -/
def rbMatches (canonical_type : String) (rb : RunbookDef) : Bool :=
  rb.finding_types.contains canonical_type || rb.aliases.contains canonical_type

/-- The catalog-scanning loop of `resolve_runbook`. -/
def resolveGo (ct : String) : Catalog → Option String
  | [] => none
  | (rid, rb) :: rest => if rbMatches ct rb then some rid else resolveGo ct rest

/-- `RemediationEngine.resolve_runbook`: normalize the finding, then scan
the catalog in iteration order and return the first runbook id whose
`finding_types` or `aliases` contain the canonical type. -/
def resolve_runbook (catalog : Catalog) (finding : Finding) : Option String :=
  resolveGo (canonicalTypeOf finding) catalog

/-!
## Remediation execution
(`src/secops_app/services/remediation_engine.py`, `execute_runbook` and
the `_execute_*` action families)

The OpenStack SDK connection is modelled as an oracle structure `Conn`:
lookups return what the control plane currently reports, mutating calls
return `Except.ok` on success or `Except.error e` when the SDK raises an
exception with text `e` (the source catches these per call site).  Every
executor additionally returns the trace of control-plane calls it made,
so that "no call was attempted" claims are statable.
-/

/-- One ingress/egress rule of a security group, as read from the SDK
(`rule.get(...)`: an absent attribute is `none`). -/
structure SGRule where
  rule_id : String
  direction : Option String
  remote_ip : Option String
  protocol : Option String
  port_range_min : Option Int
  port_range_max : Option Int

/-- A security group: its id together with its `security_group_rules`
listing as returned by `find_security_group`. -/
structure SecurityGroup where
  security_group_rules : List SGRule

/-- A floating IP as returned by `find_ip`. -/
structure FloatingIp where
  fip_id : String
  port_id : Option String

/-- The OpenStack connection oracle. -/
structure Conn where
  findSecurityGroup : DVal → Option SecurityGroup
  deleteSecurityGroupRule : String → Except String Unit
  createSecurityGroupRule : DVal → DVal → String → Except String Unit
  findServer : DVal → Option Unit
  findIp : DVal → Option FloatingIp
  updateIp : String → Except String Unit
  updatePort : DVal → Except String Unit

/-- A control-plane call, as recorded in an execution trace. -/
inductive CloudCall where
  | findSecurityGroup (sg_id : DVal)
  | deleteSecurityGroupRule (rule_id : String)
  | createSecurityGroupRule (sg_id : DVal) (port : DVal) (remote_cidr : String)
  | findServer (server_id : DVal)
  | findIp (addr : DVal)
  | updateIp (fip_id : String)
  | updatePort (port_id : DVal)

/-- The result dict `{status, stdout, stderr}` returned by every
executor. -/
structure RbResult where
  status : String
  stdout : String
  stderr : String

/-- A failure result with empty stdout. -/
def failRes (msg : String) : RbResult :=
  { status := "failed", stdout := "", stderr := msg }

/-- The world-open-rule test of `_execute_sg_runbook`: ingress, remote
prefix `0.0.0.0/0`, protocol tcp, and both ends of the port range equal
to the derived port.  A rule port of `None` never equals an integer
port (Python `None == 22` is false), and a non-integer derived port
never equals an integer rule port. -/
def isWorldOpenRule (port : DVal) (r : SGRule) : Bool :=
  (r.direction = some "ingress") && (r.remote_ip = some "0.0.0.0/0") &&
  (r.protocol = some "tcp") &&
  (match r.port_range_min, port with
   | some n, .num m => n = m
   | _, _ => false) &&
  (match r.port_range_max, port with
   | some n, .num m => n = m
   | _, _ => false)

/-- The admin-rule test of `_execute_sg_runbook`: ingress, remote prefix
equal to the configured admin CIDR, protocol tcp, derived port at both
range ends. -/
def isAdminRule (admin_cidr : String) (port : DVal) (r : SGRule) : Bool :=
  (r.direction = some "ingress") && (r.remote_ip = some admin_cidr) &&
  (r.protocol = some "tcp") &&
  (match r.port_range_min, port with
   | some n, .num m => n = m
   | _, _ => false) &&
  (match r.port_range_max, port with
   | some n, .num m => n = m
   | _, _ => false)

/-- Port derivation of `_execute_sg_runbook`: default 22 (SSH); 3389
when `"rdp"` occurs in the runbook id; for `"db"` runbooks the port must
come from the finding's details (`port_min` or `port_max`, Python `or`),
`none` when that value is missing or falsy. -/
def derivePort (runbook_id : String) (details : List (String × DVal)) : Option DVal :=
  if pyIn "rdp" runbook_id then some (.num 3389)
  else if pyIn "db" runbook_id then
    match pyOrD (dictGet "port_min" details) (dictGet "port_max" details) with
    | some v => if dvalTruthy v then some v else none
    | none => none
  else some (.num 22)

/-- Python truthiness of an optional details value (`if not sg_id`). -/
def truthyD : Option DVal → Bool
  | none => false
  | some v => dvalTruthy v

/-- Lift a finding's `resource_id` field to an optional details value. -/
def optD (o : Option String) : Option DVal :=
  o.map DVal.str

/-- Second half of `_execute_sg_runbook`: after the world-open rule has
been handled (with `lines` the stdout lines and `calls` the calls so
far), skip creation when an equivalent admin-CIDR rule already exists in
the group's rule listing, otherwise create the replacement rule. -/
def sgEnsureAdminRule (sg : SecurityGroup) (sgv port : DVal) (admin_cidr : String)
    (conn : Conn) (lines : List String) (calls : List CloudCall) :
    RbResult × List CloudCall :=
  if sg.security_group_rules.any (isAdminRule admin_cidr port) then
    ({ status := "success",
       stdout := joinLines (lines ++
         ["Admin rule for " ++ admin_cidr ++ " tcp/" ++ dvalStr port ++ " already exists"]),
       stderr := "" }, calls)
  else
    match conn.createSecurityGroupRule sgv port admin_cidr with
    | .ok _ =>
      ({ status := "success",
         stdout := joinLines (lines ++
           ["Added rule for " ++ admin_cidr ++ " tcp/" ++ dvalStr port]),
         stderr := "" }, calls ++ [.createSecurityGroupRule sgv port admin_cidr])
    | .error e =>
      ({ status := "failed", stdout := joinLines lines,
         stderr := "Error adding admin rule: " ++ e },
       calls ++ [.createSecurityGroupRule sgv port admin_cidr])

/-- `RemediationEngine._execute_sg_runbook`: resolve the security-group
id from the details (falling back to `resource_id`), derive the port
from the runbook id / details, look up the group, delete the world-open
rule if present (absence is reported as already fixed, not an error),
then ensure the admin-CIDR replacement rule exists. -/
def execute_sg_runbook (runbook_id : String) (f : Finding)
    (params : List (String × String)) (conn : Conn) : RbResult × List CloudCall :=
  match pyOrD (dictGet "sg_id" f.details) (optD f.resource_id) with
  | none => (failRes "Missing security group ID", [])
  | some sgv =>
    if dvalTruthy sgv then
      match derivePort runbook_id f.details with
      | none => (failRes "Missing database port in details", [])
      | some port =>
        let admin_cidr := (dictGet "admin_cidr" params).getD "192.168.0.0/16"
        match conn.findSecurityGroup sgv with
        | none =>
          (failRes ("Security group " ++ dvalStr sgv ++ " not found"),
           [.findSecurityGroup sgv])
        | some sg =>
          match sg.security_group_rules.find? (isWorldOpenRule port) with
          | some wr =>
            match conn.deleteSecurityGroupRule wr.rule_id with
            | .ok _ =>
              sgEnsureAdminRule sg sgv port admin_cidr conn
                ["Deleted world-open rule " ++ wr.rule_id ++ " for tcp/" ++ dvalStr port]
                [.findSecurityGroup sgv, .deleteSecurityGroupRule wr.rule_id]
            | .error e =>
              ({ status := "failed", stdout := "",
                 stderr := "Error deleting world-open rule: " ++ e },
               [.findSecurityGroup sgv, .deleteSecurityGroupRule wr.rule_id])
          | none =>
            sgEnsureAdminRule sg sgv port admin_cidr conn
              ["No world-open rule found for tcp/" ++ dvalStr port ++ " (already fixed?)"]
              [.findSecurityGroup sgv]
    else (failRes "Missing security group ID", [])

/-- Per-address body of `_execute_fip_runbook`'s loop: find the floating
IP; when it exists and is attached (truthy `port_id`) detach it,
recording a stdout or stderr line; otherwise record the
already-detached stdout line. -/
def detachOne (conn : Conn) (sid : String) (addr : DVal) :
    List String × List String × List CloudCall :=
  match conn.findIp addr with
  | some fip =>
    if truthyOptStr fip.port_id then
      match conn.updateIp fip.fip_id with
      | .ok _ =>
        (["Detached floating IP " ++ dvalStr addr ++ " from server " ++ sid], [],
         [.findIp addr, .updateIp fip.fip_id])
      | .error e =>
        ([], ["Error detaching " ++ dvalStr addr ++ ": " ++ e],
         [.findIp addr, .updateIp fip.fip_id])
    else
      (["Floating IP " ++ dvalStr addr ++ " not found or already detached"], [],
       [.findIp addr])
  | none =>
    (["Floating IP " ++ dvalStr addr ++ " not found or already detached"], [],
     [.findIp addr])

/-- The detach loop of `_execute_fip_runbook` over the `floating_ips`
list, accumulating stdout lines, stderr lines and the call trace. -/
def detachAll (conn : Conn) (sid : String) :
    List DVal → List String × List String × List CloudCall
  | [] => ([], [], [])
  | addr :: rest =>
    let r1 := detachOne conn sid addr
    let r2 := detachAll conn sid rest
    (r1.1 ++ r2.1, r1.2.1 ++ r2.2.1, r1.2.2 ++ r2.2.2)

/-- `RemediationEngine._execute_fip_runbook`: resolve the server id,
check the server exists, then detach each floating address recorded in
the details; any per-address error fails the whole action while keeping
the per-address progress in stdout. -/
def execute_fip_runbook (f : Finding) (conn : Conn) : RbResult × List CloudCall :=
  match pyOrD (dictGet "server_id" f.details) (optD f.resource_id) with
  | none => (failRes "Missing server ID", [])
  | some sv =>
    if dvalTruthy sv then
      let fips : List DVal :=
        match dictGet "floating_ips" f.details with
        | some (.arr l) => l
        | _ => []
      match conn.findServer sv with
      | none => (failRes ("Server " ++ dvalStr sv ++ " not found"), [.findServer sv])
      | some _ =>
        let r := detachAll conn (dvalStr sv) fips
        if r.2.1.isEmpty then
          ({ status := "success",
             stdout := if r.1.isEmpty then "No floating IPs to detach" else joinLines r.1,
             stderr := joinLines r.2.1 }, .findServer sv :: r.2.2)
        else
          ({ status := "failed", stdout := joinLines r.1, stderr := joinLines r.2.1 },
           .findServer sv :: r.2.2)
    else (failRes "Missing server ID", [])

/-- `RemediationEngine._execute_port_security_runbook`: resolve the port
id, then issue a single `update_port(port_security_enabled=True)`. -/
def execute_port_security_runbook (f : Finding) (conn : Conn) :
    RbResult × List CloudCall :=
  match pyOrD (dictGet "port_id" f.details) (optD f.resource_id) with
  | none => (failRes "Missing port ID", [])
  | some pv =>
    if dvalTruthy pv then
      match conn.updatePort pv with
      | .ok _ =>
        ({ status := "success",
           stdout := "Enabled port security on port " ++ dvalStr pv, stderr := "" },
         [.updatePort pv])
      | .error e =>
        ({ status := "failed", stdout := "", stderr := "Error updating port: " ++ e },
         [.updatePort pv])
    else (failRes "Missing port ID", [])

/-- `RemediationEngine._execute_os_runbook`: check the configured
Ansible inventory path (Python renders a missing parameter as `None` in
the message), resolve the server IP from the details, then report the
placeholder not-implemented failure.  `pathExists` is the
`os.path.exists` oracle. -/
def execute_os_runbook (f : Finding) (params : List (String × String))
    (pathExists : String → Bool) : RbResult × List CloudCall :=
  match dictGet "ansible_inventory" params with
  | none => (failRes "Ansible inventory not found: None", [])
  | some inv =>
    if inv = "" || !(pathExists inv) then
      (failRes ("Ansible inventory not found: " ++ inv), [])
    else
      match pyOrD (dictGet "floating_ip" f.details) (dictGet "fixed_ip" f.details) with
      | none => (failRes "Missing server IP for OS remediation", [])
      | some ip =>
        if dvalTruthy ip then
          (failRes "OS runbooks require Ansible playbook implementation", [])
        else (failRes "Missing server IP for OS remediation", [])

/-- `RemediationEngine.execute_runbook`: reject ids absent from the
catalog, then dispatch on the runbook-id naming convention
(`rb_sg_` families, the floating-ip and port-security singletons,
`rb_os_` families, otherwise an unknown-type failure).  The executors
receive the normalized finding; normalization preserves the
`details_json` and `resource_id` fields they read. -/
def execute_runbook (catalog : Catalog) (pathExists : String → Bool)
    (runbook_id : String) (f : Finding) (conn : Conn) : RbResult × List CloudCall :=
  match dictGet runbook_id catalog with
  | none =>
    (failRes ("Runbook " ++ runbook_id ++ " not found in catalog"), [])
  | some rb =>
    if pyStartsWith "rb_sg_" runbook_id then
      execute_sg_runbook runbook_id f rb.params conn
    else if runbook_id = "rb_detach_floating_ip" then
      execute_fip_runbook f conn
    else if runbook_id = "rb_enable_port_security" then
      execute_port_security_runbook f conn
    else if pyStartsWith "rb_os_" runbook_id then
      execute_os_runbook f rb.params pathExists
    else
      (failRes ("Unknown runbook type: " ++ runbook_id), [])

/-- Concrete security-group rule scoped to the admin CIDR (witness data). -/
def sgRuleAdmin0 : SGRule :=
  { rule_id := "r-a", direction := some "ingress", remote_ip := some "10.0.0.0/8",
    protocol := some "tcp", port_range_min := some 22, port_range_max := some 22 }

/-- Concrete already-remediated security group (witness data). -/
def sg0 : SecurityGroup := { security_group_rules := [sgRuleAdmin0] }

/-- Concrete SSH security-group runbook definition (witness data). -/
def rb0 : RunbookDef :=
  { finding_types := ["SG_WORLD_OPEN_SSH"], aliases := ["SG_OPEN_SSH"],
    params := [("admin_cidr", "10.0.0.0/8")] }

/-- Concrete one-runbook catalog (witness data). -/
def catalog0 : Catalog := [("rb_sg_restrict_ssh", rb0)]

/-- Concrete finding pointing at security group `sg-1` (witness data). -/
def f0 : Finding :=
  { ftype := some "SG_WORLD_OPEN_SSH", typ := none,
    details := [("sg_id", .str "sg-1")], resource_id := none }

/-- Concrete non-faulting connection oracle exposing `sg0` as `sg-1`
(witness data). -/
def conn0 : Conn :=
  { findSecurityGroup := fun v =>
      match v with
      | .str s => if s = "sg-1" then some sg0 else none
      | _ => none,
    deleteSecurityGroupRule := fun _ => .ok (),
    createSecurityGroupRule := fun _ _ _ => .ok (),
    findServer := fun _ => none,
    findIp := fun _ => none,
    updateIp := fun _ => .ok (),
    updatePort := fun _ => .ok () }

/-- Concrete finding with no `sg_id` detail and no `resource_id`
(witness data). -/
def f1 : Finding :=
  { ftype := some "SG_WORLD_OPEN_SSH", typ := none, details := [], resource_id := none }

/-!
## IaC auto-fixer (`src/prescan_node/services/fixer.py`, `AutoFixer._apply_fix`)

The filesystem is modelled as a partial map from paths to file contents
(`none` = the file does not exist).  `_find_target_file` (a
glob/existence search that never reads or writes file contents) and the
content transformations `_apply_regex_fix` / `_apply_yaml_transform` /
`_apply_yaml_format` (pure string-to-string rewrites driven by the
runbook's rules) are supplied as oracles.  `_apply_fix` returns the
action record, the resulting filesystem, and the trace of file reads and
writes it performed.
-/

/-- The `FixType` enumeration of the fixer. -/
inductive FixType where
  | regex_replace
  | yaml_transform
  | ast_transform
  | file_inject
  | yaml_format
  | yaml_inject
deriving DecidableEq

/-- The `FixStatus` enumeration of the fixer. -/
inductive FixStatus where
  | pending
  | running
  | success
  | failed
  | skipped
  | requires_approval
deriving DecidableEq

/-- Python `str(FixType...)` as interpolated into the unsupported-type
message. -/
def fixTypeRepr : FixType → String
  | .regex_replace => "FixType.REGEX_REPLACE"
  | .yaml_transform => "FixType.YAML_TRANSFORM"
  | .ast_transform => "FixType.AST_TRANSFORM"
  | .file_inject => "FixType.FILE_INJECT"
  | .yaml_format => "FixType.YAML_FORMAT"
  | .yaml_inject => "FixType.YAML_INJECT"

/-- The fix types `_apply_fix` implements; the remaining members fall to
the unsupported branch. -/
def fixTypeSupported : FixType → Bool
  | .regex_replace => true
  | .yaml_transform => true
  | .yaml_format => true
  | _ => false

/-- A fixer runbook as loaded from the prescan catalog (only the fields
`_apply_fix` consults). -/
structure PRunbook where
  id : String
  severity : String
  auto_approve : Bool
  fix_type : FixType

/-- A fix action record (the fields `_apply_fix` assigns; timestamps and
the unified diff, which no claim touches, are omitted). -/
structure FixAction where
  runbook_id : String
  target_file : String
  original_content : String
  fixed_content : String
  status : FixStatus
  error_message : Option String

/-- A file read or write performed by `_apply_fix`. -/
inductive FileOp where
  | read (path : String)
  | write (path : String) (content : String)

/-- The approval-gate condition of `_apply_fix`: the runbook is not
auto-approved, its severity is HIGH or CRITICAL, and some configured
requires-approval category occurs in its id. -/
def approvalGate (require_approval : List String) (rb : PRunbook) : Bool :=
  (!rb.auto_approve && (rb.severity = "HIGH" || rb.severity = "CRITICAL")) &&
  require_approval.any (fun cat => pyIn cat rb.id)

/-- `AutoFixer._apply_fix`: locate the target file (oracle
`findTarget`), gate on approval before any file access, fail when no
file resolves or it does not exist, read the original content, apply the
transformation for supported fix types (oracle `transform`), and write
only when the fixed content differs byte-for-byte from the original
(identical content is skipped with "No changes needed"). -/
def applyFix (require_approval : List String) (findTarget : Option String)
    (transform : FixType → String → String) (finding_file_path : String)
    (rb : PRunbook) (fs : String → Option String) :
    FixAction × (String → Option String) × List FileOp :=
  let base : FixAction :=
    { runbook_id := rb.id,
      target_file := (match findTarget with | some p => p | none => ""),
      original_content := "", fixed_content := "",
      status := .pending, error_message := none }
  if approvalGate require_approval rb then
    ({ base with status := .requires_approval }, fs, [])
  else
    match findTarget with
    | none =>
      ({ base with
         status := .failed,
         error_message := some ("Target file not found: " ++ finding_file_path) }, fs, [])
    | some tf =>
      match fs tf with
      | none =>
        ({ base with
           status := .failed,
           error_message := some ("Target file not found: " ++ finding_file_path) }, fs, [])
      | some original =>
        if fixTypeSupported rb.fix_type then
          let fixed := transform rb.fix_type original
          if fixed = original then
            ({ base with
               original_content := original, fixed_content := fixed,
               status := .skipped, error_message := some "No changes needed" },
             fs, [.read tf])
          else
            ({ base with
               original_content := original, fixed_content := fixed,
               status := .success },
             fun p => if p = tf then some fixed else fs p,
             [.read tf, .write tf fixed])
        else
          ({ base with
             original_content := original, status := .skipped,
             error_message := some ("Unsupported fix type: " ++ fixTypeRepr rb.fix_type) },
           fs, [.read tf])

/-!
## Pipeline orchestration (`src/prescan_node/main.py`,
`PreScanNode.process_deployment`, phases 2-4)

The scanner, fixer and deployer are supplied as oracles: the initial
scan's findings, the fix batch's `successful_actions` count, the
verification rescan's findings, and the serialized deployment record.
The phases run under a try/except.  One exception is reachable inside
the modelled phases: the Phase-3 HIGH/CRITICAL filter evaluates the
name `Severity`, which `main.py` never imports (line 31 imports only
`IaCScanner, ScanResult, Finding`), so iterating a non-empty rescan
raises `NameError`; the except arm then marks the run failed and
records the error, and the remaining counts, the deploy decision and
`deployment_skipped` are never set.  Over an empty rescan the
comprehension body is never evaluated, so that path completes.
-/

/-- The severity enumeration of the prescan scanner. -/
inductive PSeverity where
  | CRITICAL
  | HIGH
  | MEDIUM
  | LOW
  | INFO
deriving DecidableEq

/-- A prescan finding (only the severity is consulted by the modelled
phases). -/
structure PFinding where
  severity : PSeverity

/-- The results record built by `process_deployment` (the fields the
modelled phases assign; absent keys are `none`). -/
structure PipelineOut where
  findings_count : Nat
  fix_batch_successful : Option Nat
  remaining_findings : Option Nat
  remaining_high_critical : Option Nat
  deployment : Option String
  deployment_skipped : Option String
  deploy_invoked : Bool
  status : String
  error : Option String

/-- Phase 4 of `PreScanNode.process_deployment` and the trailing status
assignment: when the deployer is enabled, deploy only if
`results.get("remaining_findings", findings_count)` is zero, otherwise
record the skip reason with the remaining count. -/
def deployPhase (deployerEnabled : Bool) (n : Nat) (fixb rem remhc : Option Nat)
    (deployRec : String) : PipelineOut :=
  if deployerEnabled then
    let remaining := rem.getD n
    if remaining = 0 then
      { findings_count := n, fix_batch_successful := fixb,
        remaining_findings := rem, remaining_high_critical := remhc,
        deployment := some deployRec, deployment_skipped := none,
        deploy_invoked := true, status := "completed", error := none }
    else
      { findings_count := n, fix_batch_successful := fixb,
        remaining_findings := rem, remaining_high_critical := remhc,
        deployment := none,
        deployment_skipped := some (toString remaining ++ " findings remaining"),
        deploy_invoked := false, status := "completed", error := none }
  else
    { findings_count := n, fix_batch_successful := fixb,
      remaining_findings := rem, remaining_high_critical := remhc,
      deployment := none, deployment_skipped := none, deploy_invoked := false,
      status := "completed", error := none }

/-- Phases 2-4 of `PreScanNode.process_deployment`: when findings exist
and the fixer is enabled run the fixer; after a successful fix run the
verification rescan.  Over a non-empty rescan the HIGH/CRITICAL
comprehension raises `NameError` (`Severity` is unimported in
`main.py`), the except arm marks the run failed, and no remaining count,
deployment or skip reason is recorded; over an empty rescan the counts
are recorded (both zero) and Phase 4 runs. -/
def process_deployment (fixerEnabled deployerEnabled : Bool)
    (initialFindings : List PFinding) (fixSucc : List PFinding → Nat)
    (rescanFindings : List PFinding) (deployRec : String) : PipelineOut :=
  let n := initialFindings.length
  if !initialFindings.isEmpty && fixerEnabled then
    let s := fixSucc initialFindings
    if s > 0 then
      if rescanFindings.isEmpty then
        deployPhase deployerEnabled n (some s) (some rescanFindings.length) (some 0)
          deployRec
      else
        { findings_count := n, fix_batch_successful := some s,
          remaining_findings := none, remaining_high_critical := none,
          deployment := none, deployment_skipped := none, deploy_invoked := false,
          status := "failed", error := some "name 'Severity' is not defined" }
    else deployPhase deployerEnabled n (some s) none none deployRec
  else deployPhase deployerEnabled n none none none deployRec

/-- Concrete HIGH-severity, non-auto-approved fixer runbook whose id
matches the configured approval category (witness data). -/
def rbP0 : PRunbook :=
  { id := "fix_sg_world_open", severity := "HIGH", auto_approve := false,
    fix_type := .regex_replace }

/-- Concrete filesystem with one Terraform file (witness data). -/
def fs0 : String → Option String :=
  fun p => if p = "main.tf" then some "resource \"x\" \x7b\x7d" else none

/-- Concrete non-gated fixer runbook (witness data). -/
def rbP1 : PRunbook :=
  { id := "fix_whitespace", severity := "LOW", auto_approve := false,
    fix_type := .yaml_format }

/-!
## Catalog loading and placeholder substitution
(`src/secops_app/services/remediation_engine.py`, `_substitute_env_vars`)

For character-level reasoning about the `${NAME}` placeholder form,
Python strings are modelled here as `List Char` and the raw YAML catalog
document as the tagged union `PVal`.  `os.environ` is the oracle
`Strg → Option Strg` (`none` = variable unset).
-/

/-- A Python string at character granularity. -/
abbrev Strg := List Char

/-- A raw YAML value as loaded by `yaml.safe_load`: Python dicts are
association lists in document order. -/
inductive PVal where
  | str (s : Strg)
  | num (n : Int)
  | boolean (b : Bool)
  | nil
  | arr (items : List PVal)
  | dict (entries : List (Strg × PVal))

/-- Generic `dict.get(key)` over an association list with an arbitrary
key type. -/
def assocL {κ α : Type} [DecidableEq κ] (k : κ) : List (κ × α) → Option α
  | [] => none
  | (a, b) :: rest => if k = a then some b else assocL k rest

/-- The exact placeholder form `${NAME}`. -/
def placeholderOf (name : Strg) : Strg :=
  ['$', '\x7b'] ++ name ++ ['\x7d']

/-- The key `"params"`. -/
def paramsKeyL : Strg := ['p', 'a', 'r', 'a', 'm', 's']

/-- The parameter-substitution loop body of `_substitute_env_vars`: a
string parameter value that starts with the two characters of the
placeholder opener and ends with its closer is replaced by
`os.environ.get(value[2:-1], value)`; every other value is kept. -/
def substParamValue (env : Strg → Option Strg) (v : PVal) : PVal :=
  match v with
  | .str s =>
    if ['$', '\x7b'].isPrefixOf s && ['\x7d'].isSuffixOf s then
      .str ((env ((s.drop 2).dropLast)).getD s)
    else .str s
  | v => v

/-- The params-dict substitution of `_substitute_env_vars`, applied
pointwise over the parameter entries. -/
def substParams (env : Strg → Option Strg) (pentries : List (Strg × PVal)) :
    List (Strg × PVal) :=
  pentries.map (fun q => (q.1, substParamValue env q.2))

/-- Replace the value bound to `k` (dict update `v["params"] = params`),
keeping document order. -/
def setKey (k : Strg) (newv : PVal) : List (Strg × PVal) → List (Strg × PVal)
  | [] => []
  | (a, b) :: rest => if a = k then (a, newv) :: rest else (a, b) :: setKey k newv rest

/-- The `if "params" in v and isinstance(v["params"], dict)` step of
`_substitute_env_vars`: substitute the params dict when present, leave
the entries unchanged otherwise. -/
def paramsSubst (env : Strg → Option Strg) (ventries : List (Strg × PVal)) :
    List (Strg × PVal) :=
  match assocL paramsKeyL ventries with
  | some (.dict pentries) => setKey paramsKeyL (.dict (substParams env pentries)) ventries
  | _ => ventries

mutual

/-- Nesting depth of a raw catalog value (termination measure for the
recursive substitution: substitution replaces strings by strings and
hence preserves this depth). -/
def pdepth : PVal → Nat
  | .dict entries => 1 + entriesDepth entries
  | .arr items => 1 + itemsDepth items
  | _ => 0

def entriesDepth : List (Strg × PVal) → Nat
  | [] => 0
  | (_, v) :: rest => 1 + pdepth v + entriesDepth rest

def itemsDepth : List PVal → Nat
  | [] => 0
  | v :: rest => 1 + pdepth v + itemsDepth rest

end

mutual

/-- `RemediationEngine._substitute_env_vars`, mutually with its
traversals: a dict maps each entry through the dict-value step, a list
maps each item recursively, every other value is returned unchanged. -/
def substEnvVars (env : Strg → Option Strg) : PVal → PVal
  | .dict entries => .dict (substTop env entries)
  | .arr items => .arr (substList env items)
  | .str s => .str s
  | .num n => .num n
  | .boolean b => .boolean b
  | .nil => .nil
termination_by v => 2 * pdepth v
decreasing_by all_goals (simp only [pdepth, entriesDepth, itemsDepth]; omega)

/-- The dict loop of `_substitute_env_vars`. -/
def substTop (env : Strg → Option Strg) : List (Strg × PVal) → List (Strg × PVal)
  | [] => []
  | (k, v) :: rest => (k, substVal env v) :: substTop env rest
termination_by l => 2 * entriesDepth l
decreasing_by all_goals (simp only [pdepth, entriesDepth, itemsDepth]; omega)

/-- The dict-loop body of `_substitute_env_vars`: a dict value gets its
params substituted and is then recursed into; a non-dict value is
assigned unchanged. -/
def substVal (env : Strg → Option Strg) : PVal → PVal
  | .dict ventries => substEnvVars env (.dict (paramsSubst env ventries))
  | v => v
termination_by v => 2 * pdepth v + 1
decreasing_by
  simp only [pdepth]
  have hp : ∀ (w : PVal), pdepth (substParamValue env w) = pdepth w := by
    intro w
    cases w with
    | str s =>
      simp only [substParamValue]
      split <;> simp [pdepth]
    | num n => simp [substParamValue]
    | boolean b => simp [substParamValue]
    | nil => simp [substParamValue]
    | arr i => simp [substParamValue]
    | dict e => simp [substParamValue]
  have hsp : ∀ (l : List (Strg × PVal)),
      entriesDepth (substParams env l) = entriesDepth l := by
    intro l
    induction l with
    | nil => simp [substParams]
    | cons hd tl ih =>
      obtain ⟨k, w⟩ := hd
      have ih2 := ih
      simp only [substParams] at ih2
      simp only [substParams, List.map_cons, entriesDepth, hp, ih2]
  have hsk : ∀ (k : Strg) (newv : PVal) (l : List (Strg × PVal)),
      (∀ old, assocL k l = some old → pdepth newv = pdepth old) →
      entriesDepth (setKey k newv l) = entriesDepth l := by
    intro k newv l
    induction l with
    | nil => intro _; rfl
    | cons hd tl ih =>
      obtain ⟨a, b⟩ := hd
      intro h
      by_cases hak : a = k
      · subst hak
        rw [setKey, if_pos rfl]
        have hb := h b (by rw [assocL, if_pos rfl])
        simp [entriesDepth, hb]
      · rw [setKey, if_neg hak]
        simp only [entriesDepth]
        rw [ih (fun old hold =>
          h old (by rw [assocL, if_neg (fun hka => hak hka.symm)]; exact hold))]
  have hpp : entriesDepth (paramsSubst env ventries) = entriesDepth ventries := by
    unfold paramsSubst
    cases hl : assocL paramsKeyL ventries with
    | none => rfl
    | some w =>
      cases w with
      | dict pentries =>
        apply hsk
        intro old hold
        rw [hl] at hold
        injection hold with h2
        subst h2
        simp [pdepth, hsp]
      | str s => rfl
      | num n => rfl
      | boolean b => rfl
      | nil => rfl
      | arr i => rfl
  omega

/-- The list traversal of `_substitute_env_vars`. -/
def substList (env : Strg → Option Strg) : List PVal → List PVal
  | [] => []
  | v :: rest => substEnvVars env v :: substList env rest
termination_by l => 2 * itemsDepth l
decreasing_by all_goals (simp only [pdepth, entriesDepth, itemsDepth]; omega)

end

/-- A value that is not a dict (the dict loop of `_substitute_env_vars`
recurses only into dict values). -/
def pvalNonDict : PVal → Bool
  | .dict _ => false
  | _ => true

/-- Concrete environment binding `AC` (witness data). -/
def env0 : Strg → Option Strg :=
  fun n => if n = ['A', 'C'] then some ['1', '0', '.', '0', '.', '0', '.', '0', '/', '8'] else none

/-!
## Claims about the canonicalizer and the resolver
-/

/-- Helper: the target of every alias-table entry is itself listed in the
canonical-types table (and is nonempty). -/
theorem aliasTargetCanonical (x t : String) (h : dictGet x TYPE_ALIASES = some t) :
    (dictGet t CANONICAL_TYPES).isSome = true ∧ t ≠ "" := by
  simp only [TYPE_ALIASES, dictGet] at h
  split_ifs at h <;> simp only [Option.some.injEq] at h <;> subst h <;> decide

/-- Claim C9: the canonicalizer is idempotent: for every string `x`,
`get_canonical_type (get_canonical_type x) = get_canonical_type x`. -/
theorem C9_canonicalize_idempotent (x : String) :
    get_canonical_type (get_canonical_type x) = get_canonical_type x := by
  by_cases hx : x = ""
  · subst hx; decide
  · by_cases hc : (dictGet x CANONICAL_TYPES).isSome = true
    · have hgx : get_canonical_type x = x := by
        rw [get_canonical_type, if_neg hx, if_pos hc]
      rw [hgx]; exact hgx
    · cases ha : dictGet x TYPE_ALIASES with
      | none =>
        have hgx : get_canonical_type x = x := by
          rw [get_canonical_type, if_neg hx, if_neg hc, ha, Option.getD_none]
        rw [hgx]; exact hgx
      | some t =>
        have hgx : get_canonical_type x = t := by
          rw [get_canonical_type, if_neg hx, if_neg hc, ha, Option.getD_some]
        obtain ⟨ht, htne⟩ := aliasTargetCanonical x t ha
        have hgt : get_canonical_type t = t := by
          rw [get_canonical_type, if_neg htne, if_pos ht]
        rw [hgx, hgt]

/-- Counterexample to claim C6 as frozen: the empty string is a key of
neither table, yet `get_canonical_type ""` is `"UNKNOWN"`, not `""`. -/
theorem C6_counterexample :
    dictGet "" CANONICAL_TYPES = none ∧ dictGet "" TYPE_ALIASES = none ∧
    get_canonical_type "" ≠ "" := by
  decide

/-- Claim C6 (amended): for every nonempty string `x` that is a key of
neither the canonical-types table nor the alias table,
`get_canonical_type x` returns `x` itself. -/
theorem C6_unknown_passthrough (x : String) (hne : x ≠ "")
    (hc : dictGet x CANONICAL_TYPES = none)
    (ha : dictGet x TYPE_ALIASES = none) :
    get_canonical_type x = x := by
  rw [get_canonical_type, if_neg hne, hc, ha]
  simp

/-- Witness for C6 (amended) at the concrete unknown type
`API_TOTALLY_NEW`. -/
theorem C6_unknown_passthrough_witness :
    get_canonical_type "API_TOTALLY_NEW" = "API_TOTALLY_NEW" :=
  C6_unknown_passthrough "API_TOTALLY_NEW" (by decide) (by decide) (by decide)

/-- Claim C7: `resolve_runbook` returns the id of the first runbook in
catalog iteration order whose `finding_types` or `aliases` contain the
finding's canonical type, and returns `none` exactly when no runbook
matches.  The function is pure (it takes the catalog as a value and
cannot mutate it), so two resolutions of the same finding against the
same catalog trivially coincide. -/
theorem C7_resolver_first_match (catalog : Catalog) (f : Finding) :
    (∀ rid, resolve_runbook catalog f = some rid →
      ∃ pre rb post, catalog = pre ++ (rid, rb) :: post ∧
        rbMatches (canonicalTypeOf f) rb = true ∧
        ∀ e ∈ pre, rbMatches (canonicalTypeOf f) e.2 = false) ∧
    (resolve_runbook catalog f = none ↔
      ∀ e ∈ catalog, rbMatches (canonicalTypeOf f) e.2 = false) := by
  constructor
  · intro rid h
    rw [resolve_runbook] at h
    induction catalog with
    | nil => simp [resolveGo] at h
    | cons hd tl ih =>
      obtain ⟨hid, hrb⟩ := hd
      rw [resolveGo] at h
      by_cases hm : rbMatches (canonicalTypeOf f) hrb = true
      · rw [if_pos hm, Option.some.injEq] at h
        subst h
        exact ⟨[], hrb, tl, rfl, hm, by simp⟩
      · rw [if_neg hm] at h
        obtain ⟨pre, rb, post, heq, hmatch, hpre⟩ := ih h
        refine ⟨(hid, hrb) :: pre, rb, post, by rw [heq]; rfl, hmatch, ?_⟩
        intro e he
        rcases List.mem_cons.mp he with h1 | h2
        · subst h1; simpa using hm
        · exact hpre e h2
  · rw [resolve_runbook]
    induction catalog with
    | nil => simp [resolveGo]
    | cons hd tl ih =>
      obtain ⟨hid, hrb⟩ := hd
      rw [resolveGo]
      by_cases hm : rbMatches (canonicalTypeOf f) hrb = true
      · simp [if_pos hm, hm]
      · rw [if_neg hm, ih]
        constructor
        · intro hall e he
          rcases List.mem_cons.mp he with h1 | h2
          · subst h1; simpa using hm
          · exact hall e h2
        · intro hall e he
          exact hall e (List.mem_cons_of_mem _ he)

/-!
## Claims about runbook execution
-/

/-- Helper: `sgEnsureAdminRule` only ever reports success or failure. -/
theorem sgEnsureAdminRule_status (sg : SecurityGroup) (sgv port : DVal)
    (ac : String) (conn : Conn) (lines : List String) (calls : List CloudCall) :
    (sgEnsureAdminRule sg sgv port ac conn lines calls).1.status = "success" ∨
    (sgEnsureAdminRule sg sgv port ac conn lines calls).1.status = "failed" := by
  unfold sgEnsureAdminRule
  split
  · left; rfl
  · split
    · left; rfl
    · right; rfl

/-- Helper: `execute_sg_runbook` only ever reports success or failure. -/
theorem execute_sg_runbook_status (rid : String) (f : Finding)
    (params : List (String × String)) (conn : Conn) :
    (execute_sg_runbook rid f params conn).1.status = "success" ∨
    (execute_sg_runbook rid f params conn).1.status = "failed" := by
  unfold execute_sg_runbook
  split
  · right; rfl
  · split
    · split
      · right; rfl
      · split
        · right; rfl
        · split
          · split
            · apply sgEnsureAdminRule_status
            · right; rfl
          · apply sgEnsureAdminRule_status
    · right; rfl

/-- Helper: `execute_fip_runbook` only ever reports success or failure. -/
theorem execute_fip_runbook_status (f : Finding) (conn : Conn) :
    (execute_fip_runbook f conn).1.status = "success" ∨
    (execute_fip_runbook f conn).1.status = "failed" := by
  unfold execute_fip_runbook
  repeat' first
    | (left; rfl)
    | (right; rfl)
    | split
    | dsimp only

/-- Helper: `execute_port_security_runbook` only ever reports success or
failure. -/
theorem execute_port_security_runbook_status (f : Finding) (conn : Conn) :
    (execute_port_security_runbook f conn).1.status = "success" ∨
    (execute_port_security_runbook f conn).1.status = "failed" := by
  unfold execute_port_security_runbook
  split
  · right; rfl
  · split
    · split
      · left; rfl
      · right; rfl
    · right; rfl

/-- Helper: `execute_os_runbook` only ever reports failure (placeholder
family). -/
theorem execute_os_runbook_status (f : Finding) (params : List (String × String))
    (pathExists : String → Bool) :
    (execute_os_runbook f params pathExists).1.status = "failed" := by
  unfold execute_os_runbook
  split
  · rfl
  · split
    · rfl
    · split
      · rfl
      · split
        · rfl
        · rfl

/-- Claim C10: `execute_runbook` is total over every catalog, runbook id,
finding and connection oracle: it always returns a result record whose
`status` is `"success"` or `"failed"` (the `stdout` and `stderr` keys are
present by construction of `RbResult`), and in the embedding it is a
total function, never an exception.  Moreover an unknown runbook id does
not throw but yields a failed result with an explanatory stderr: an id
absent from the catalog yields exactly
`failRes ("Runbook <id> not found in catalog")`, and an id in the
catalog matching no known family (not `rb_sg_`-prefixed, not the
floating-ip or port-security singleton, not `rb_os_`-prefixed) yields
exactly `failRes ("Unknown runbook type: <id>")`. -/
theorem C10_execute_runbook_total (catalog : Catalog) (pathExists : String → Bool)
    (rid : String) (f : Finding) (conn : Conn) :
    ((execute_runbook catalog pathExists rid f conn).1.status = "success" ∨
     (execute_runbook catalog pathExists rid f conn).1.status = "failed") ∧
    (dictGet rid catalog = none →
      (execute_runbook catalog pathExists rid f conn).1 =
        failRes ("Runbook " ++ rid ++ " not found in catalog") ∧
      (execute_runbook catalog pathExists rid f conn).2 = []) ∧
    (∀ rb, dictGet rid catalog = some rb →
      pyStartsWith "rb_sg_" rid = false →
      rid ≠ "rb_detach_floating_ip" →
      rid ≠ "rb_enable_port_security" →
      pyStartsWith "rb_os_" rid = false →
      (execute_runbook catalog pathExists rid f conn).1 =
        failRes ("Unknown runbook type: " ++ rid) ∧
      (execute_runbook catalog pathExists rid f conn).2 = []) := by
  refine ⟨?_, ?_, ?_⟩
  · unfold execute_runbook
    split
    · right; rfl
    · split
      · apply execute_sg_runbook_status
      · split
        · apply execute_fip_runbook_status
        · split
          · apply execute_port_security_runbook_status
          · split
            · right; apply execute_os_runbook_status
            · right; rfl
  · intro h
    unfold execute_runbook
    rw [h]
    exact ⟨rfl, rfl⟩
  · intro rb hcat h1 h2 h3 h4
    unfold execute_runbook
    rw [hcat]
    simp [h1, h2, h3, h4]

/-- Witness for C10's unknown-id conjuncts: the id `rb_nope` is absent
from the concrete catalog and yields the explanatory failure; the
catalog-listed id `rb_other` matches no family and yields the
unknown-type failure. -/
theorem C10_execute_runbook_total_witness :
    ((execute_runbook catalog0 (fun _ => true) "rb_nope" f0 conn0).1 =
       failRes ("Runbook " ++ "rb_nope" ++ " not found in catalog") ∧
     (execute_runbook catalog0 (fun _ => true) "rb_nope" f0 conn0).2 = []) ∧
    ((execute_runbook [("rb_other", rb0)] (fun _ => true) "rb_other" f0 conn0).1 =
       failRes ("Unknown runbook type: " ++ "rb_other") ∧
     (execute_runbook [("rb_other", rb0)] (fun _ => true) "rb_other" f0 conn0).2 = []) :=
  ⟨(C10_execute_runbook_total catalog0 (fun _ => true) "rb_nope" f0 conn0).2.1 rfl,
   (C10_execute_runbook_total [("rb_other", rb0)] (fun _ => true) "rb_other" f0
     conn0).2.2 rb0 rfl (by decide) (by decide) (by decide) (by decide)⟩

/-- Helper: joining two lines inserts a single newline. -/
theorem joinLines_pair (a b : String) : joinLines [a, b] = a ++ ("\n" ++ b) := by
  show (a ++ "\n") ++ b = a ++ ("\n" ++ b)
  rw [String.append_assoc]

/-- Claim C1: idempotence of security-group remediation.  For every
finding and catalog-resolved `rb_sg_` runbook with a well-identified
security group and derivable port, against a non-faulting control plane:
if the group has no world-open ingress rule (direction ingress, remote
prefix 0.0.0.0/0, protocol tcp, both port-range ends equal to the
derived port), execution reports success and its stdout opens with the
no-world-open-rule note; and if an ingress rule for the configured admin
CIDR on that same tcp port already exists, the call trace is exactly the
group lookup — in particular no `create_security_group_rule` call is
made, so a second execution against an already-remediated group succeeds
without creating duplicate rules. -/
theorem C1_sg_remediation_idempotent (catalog : Catalog) (pathExists : String → Bool)
    (rid : String) (f : Finding) (conn : Conn) (rb : RunbookDef)
    (sgv port : DVal) (sg : SecurityGroup)
    (hcat : dictGet rid catalog = some rb)
    (hpre : pyStartsWith "rb_sg_" rid = true)
    (hid : pyOrD (dictGet "sg_id" f.details) (optD f.resource_id) = some sgv)
    (htr : dvalTruthy sgv = true)
    (hport : derivePort rid f.details = some port)
    (hfind : conn.findSecurityGroup sgv = some sg)
    (hworld : ∀ r ∈ sg.security_group_rules, isWorldOpenRule port r = false)
    (hcreate : ∀ a b c, conn.createSecurityGroupRule a b c = .ok ()) :
    (execute_runbook catalog pathExists rid f conn).1.status = "success" ∧
    (∃ rest, (execute_runbook catalog pathExists rid f conn).1.stdout =
      "No world-open rule found for tcp/" ++ dvalStr port ++ " (already fixed?)" ++ rest) ∧
    (sg.security_group_rules.any
        (isAdminRule ((dictGet "admin_cidr" rb.params).getD "192.168.0.0/16") port) = true →
      (execute_runbook catalog pathExists rid f conn).2 =
        [CloudCall.findSecurityGroup sgv]) := by
  have hfnone : sg.security_group_rules.find? (isWorldOpenRule port) = none :=
    List.find?_eq_none.mpr (fun x hx => by simp [hworld x hx])
  have hexec : execute_runbook catalog pathExists rid f conn =
      execute_sg_runbook rid f rb.params conn := by
    unfold execute_runbook
    rw [hcat]
    simp [hpre]
  have hsgrun : execute_sg_runbook rid f rb.params conn =
      sgEnsureAdminRule sg sgv port ((dictGet "admin_cidr" rb.params).getD "192.168.0.0/16")
        conn ["No world-open rule found for tcp/" ++ dvalStr port ++ " (already fixed?)"]
        [CloudCall.findSecurityGroup sgv] := by
    unfold execute_sg_runbook
    rw [hid]
    simp only [htr, if_true, hport, hfind, hfnone]
  rw [hexec, hsgrun]
  unfold sgEnsureAdminRule
  by_cases hadm : sg.security_group_rules.any
      (isAdminRule ((dictGet "admin_cidr" rb.params).getD "192.168.0.0/16") port) = true
  · rw [if_pos hadm]
    refine ⟨rfl, ⟨"\n" ++ ("Admin rule for " ++
      ((dictGet "admin_cidr" rb.params).getD "192.168.0.0/16") ++ " tcp/" ++ dvalStr port ++
      " already exists"), ?_⟩, fun _ => rfl⟩
    exact joinLines_pair _ _
  · rw [if_neg hadm, hcreate]
    refine ⟨rfl, ⟨"\n" ++ ("Added rule for " ++
      ((dictGet "admin_cidr" rb.params).getD "192.168.0.0/16") ++ " tcp/" ++ dvalStr port), ?_⟩,
      fun h => absurd h hadm⟩
    exact joinLines_pair _ _

/-- Helper: when the runbook id is in the catalog and carries the
`rb_sg_` naming convention, `execute_runbook` dispatches to
`execute_sg_runbook` with the runbook's params. -/
theorem execute_runbook_sg_dispatch (catalog : Catalog) (pathExists : String → Bool)
    (rid : String) (f : Finding) (conn : Conn) (rb : RunbookDef)
    (hcat : dictGet rid catalog = some rb)
    (hpre : pyStartsWith "rb_sg_" rid = true) :
    execute_runbook catalog pathExists rid f conn =
      execute_sg_runbook rid f rb.params conn := by
  unfold execute_runbook
  rw [hcat]
  simp [hpre]

/-- Witness for C1: executing the SSH runbook against the
already-remediated group `sg0` succeeds, notes the absent world-open
rule, and the trace is exactly the group lookup. -/
theorem C1_sg_remediation_idempotent_witness :
    (execute_runbook catalog0 (fun _ => true) "rb_sg_restrict_ssh" f0 conn0).1.status =
      "success" ∧
    (∃ rest, (execute_runbook catalog0 (fun _ => true) "rb_sg_restrict_ssh" f0 conn0).1.stdout =
      "No world-open rule found for tcp/" ++ dvalStr (.num 22) ++ " (already fixed?)" ++ rest) ∧
    (sg0.security_group_rules.any
        (isAdminRule ((dictGet "admin_cidr" rb0.params).getD "192.168.0.0/16") (.num 22)) = true →
      (execute_runbook catalog0 (fun _ => true) "rb_sg_restrict_ssh" f0 conn0).2 =
        [CloudCall.findSecurityGroup (.str "sg-1")]) :=
  C1_sg_remediation_idempotent catalog0 (fun _ => true) "rb_sg_restrict_ssh" f0 conn0 rb0
    (.str "sg-1") (.num 22) sg0 rfl rfl rfl rfl rfl rfl
    (by intro r hr; simp [sg0] at hr; subst hr; rfl)
    (fun _ _ _ => rfl)

/-- Claim C3: missing-identifier hard failure.  For every catalog-listed
`rb_sg_` runbook: a finding whose details carry no `sg_id` and which has
no `resource_id` fails with the missing-security-group-id error and an
empty control-plane call trace; and a `db`-tagged `rb_sg_` runbook (not
`rdp`-tagged, which the source checks first) whose finding details carry
neither `port_min` nor `port_max` fails with the missing-database-port
error — the port is never defaulted — again with no control-plane call
attempted. -/
theorem C3_missing_identifier_fails (catalog : Catalog) (pathExists : String → Bool)
    (rid : String) (f : Finding) (conn : Conn) (rb : RunbookDef)
    (hcat : dictGet rid catalog = some rb)
    (hpre : pyStartsWith "rb_sg_" rid = true) :
    ((dictGet "sg_id" f.details = none ∧ f.resource_id = none) →
      (execute_runbook catalog pathExists rid f conn).1.status = "failed" ∧
      (execute_runbook catalog pathExists rid f conn).1.stderr =
        "Missing security group ID" ∧
      (execute_runbook catalog pathExists rid f conn).2 = []) ∧
    ((pyIn "rdp" rid = false ∧ pyIn "db" rid = true ∧
      dictGet "port_min" f.details = none ∧ dictGet "port_max" f.details = none ∧
      truthyD (pyOrD (dictGet "sg_id" f.details) (optD f.resource_id)) = true) →
      (execute_runbook catalog pathExists rid f conn).1.status = "failed" ∧
      (execute_runbook catalog pathExists rid f conn).1.stderr =
        "Missing database port in details" ∧
      (execute_runbook catalog pathExists rid f conn).2 = []) := by
  rw [execute_runbook_sg_dispatch catalog pathExists rid f conn rb hcat hpre]
  constructor
  · rintro ⟨h1, h2⟩
    have hid0 : pyOrD (dictGet "sg_id" f.details) (optD f.resource_id) = none := by
      rw [h1, h2]; rfl
    unfold execute_sg_runbook
    rw [hid0]
    exact ⟨rfl, rfl, rfl⟩
  · rintro ⟨hrdp, hdb, hpm, hpx, htruthy⟩
    have hport0 : derivePort rid f.details = none := by
      unfold derivePort
      rw [hrdp, hdb, hpm, hpx]
      rfl
    cases hor : pyOrD (dictGet "sg_id" f.details) (optD f.resource_id) with
    | none => rw [hor] at htruthy; simp [truthyD] at htruthy
    | some v =>
      rw [hor] at htruthy
      have htv : dvalTruthy v = true := htruthy
      unfold execute_sg_runbook
      rw [hor]
      dsimp only
      rw [if_pos htv, hport0]
      exact ⟨rfl, rfl, rfl⟩

/-- Witness for C3: executing the SSH security-group runbook against a
finding with neither `sg_id` detail nor `resource_id` fails with the
missing-security-group-id error and attempts no control-plane call. -/
theorem C3_missing_identifier_fails_witness :
    (execute_runbook catalog0 (fun _ => true) "rb_sg_restrict_ssh" f1 conn0).1.status =
      "failed" ∧
    (execute_runbook catalog0 (fun _ => true) "rb_sg_restrict_ssh" f1 conn0).1.stderr =
      "Missing security group ID" ∧
    (execute_runbook catalog0 (fun _ => true) "rb_sg_restrict_ssh" f1 conn0).2 = [] :=
  (C3_missing_identifier_fails catalog0 (fun _ => true) "rb_sg_restrict_ssh" f1 conn0 rb0
    rfl rfl).1
    ⟨(rfl : dictGet "sg_id" f1.details = none), (rfl : f1.resource_id = none)⟩

/-!
## Claims about the auto-fixer and the pipeline
-/

/-- Claim C4: approval-gate frame property.  For every fix action whose
runbook is not auto-approved, has HIGH or CRITICAL severity, and whose
id matches a configured requires-approval category, `_apply_fix` returns
an action with status `REQUIRES_APPROVAL`, the filesystem is returned
unchanged (so the target file's content is untouched), and the file
read/write trace is empty. -/
theorem C4_approval_gate_frame (reqApp : List String) (findTarget : Option String)
    (transform : FixType → String → String) (ffp : String) (rb : PRunbook)
    (fs : String → Option String)
    (h1 : rb.auto_approve = false)
    (h2 : rb.severity = "HIGH" ∨ rb.severity = "CRITICAL")
    (h3 : reqApp.any (fun cat => pyIn cat rb.id) = true) :
    (applyFix reqApp findTarget transform ffp rb fs).1.status =
      FixStatus.requires_approval ∧
    (applyFix reqApp findTarget transform ffp rb fs).2.1 = fs ∧
    (applyFix reqApp findTarget transform ffp rb fs).2.2 = [] := by
  have hg : approvalGate reqApp rb = true := by
    unfold approvalGate
    rw [h1, h3]
    rcases h2 with h | h <;> rw [h] <;> rfl
  unfold applyFix
  rw [if_pos hg]
  exact ⟨rfl, rfl, rfl⟩

/-- Witness for C4: applying `rbP0` under the approval category
`sg_world` leaves the action requiring approval, the filesystem
unchanged, and the file-op trace empty. -/
theorem C4_approval_gate_frame_witness :
    (applyFix ["sg_world"] (some "main.tf") (fun _ s => s) "main.tf" rbP0 fs0).1.status =
      FixStatus.requires_approval ∧
    (applyFix ["sg_world"] (some "main.tf") (fun _ s => s) "main.tf" rbP0 fs0).2.1 = fs0 ∧
    (applyFix ["sg_world"] (some "main.tf") (fun _ s => s) "main.tf" rbP0 fs0).2.2 = [] :=
  C4_approval_gate_frame ["sg_world"] (some "main.tf") (fun _ s => s) "main.tf" rbP0 fs0
    rfl (Or.inl rfl) rfl

/-- Claim C5: no-op writes avoided.  First: for every fix action that
reaches the transformation (gate not triggered, target resolved and
existing, supported fix type) and whose produced fixed content equals
the original byte-for-byte, the action ends `SKIPPED` with error
message "No changes needed", the filesystem is unchanged, and no write
appears in the trace.  Second: across all executions, a write in the
trace implies the action's fixed content differs from its original
content. -/
theorem C5_noop_writes_avoided (reqApp : List String) (findTarget : Option String)
    (transform : FixType → String → String) (ffp : String) (rb : PRunbook)
    (fs : String → Option String) :
    (∀ tf orig,
      approvalGate reqApp rb = false →
      findTarget = some tf →
      fs tf = some orig →
      fixTypeSupported rb.fix_type = true →
      transform rb.fix_type orig = orig →
      (applyFix reqApp findTarget transform ffp rb fs).1.status = FixStatus.skipped ∧
      (applyFix reqApp findTarget transform ffp rb fs).1.error_message =
        some "No changes needed" ∧
      (applyFix reqApp findTarget transform ffp rb fs).2.1 = fs ∧
      ∀ p c, FileOp.write p c ∉ (applyFix reqApp findTarget transform ffp rb fs).2.2) ∧
    (∀ p c, FileOp.write p c ∈ (applyFix reqApp findTarget transform ffp rb fs).2.2 →
      (applyFix reqApp findTarget transform ffp rb fs).1.fixed_content ≠
        (applyFix reqApp findTarget transform ffp rb fs).1.original_content) := by
  constructor
  · intro tf orig hg htf hfs hsupp heq
    have hgneg : ¬ (approvalGate reqApp rb = true) := by simp [hg]
    simp [applyFix, hgneg, htf, hfs, hsupp, heq]
  · intro p c hmem
    by_cases hg : approvalGate reqApp rb = true
    · simp [applyFix, hg] at hmem
    · cases htf : findTarget with
      | none => simp [applyFix, hg, htf] at hmem
      | some tf =>
        cases hfs : fs tf with
        | none => simp [applyFix, hg, htf, hfs] at hmem
        | some orig =>
          by_cases hsupp : fixTypeSupported rb.fix_type = true
          · by_cases heq : transform rb.fix_type orig = orig
            · simp [applyFix, hg, htf, hfs, hsupp, heq] at hmem
            · simp [applyFix, hg, htf, hfs, hsupp, heq]
          · simp [applyFix, hg, htf, hfs, hsupp] at hmem

/-- Witness for C5: an identity transformation on an existing file is
skipped with "No changes needed", leaves the filesystem unchanged, and
writes nothing. -/
theorem C5_noop_writes_avoided_witness :
    (applyFix [] (some "main.tf") (fun _ s => s) "main.tf" rbP1 fs0).1.status =
      FixStatus.skipped ∧
    (applyFix [] (some "main.tf") (fun _ s => s) "main.tf" rbP1 fs0).1.error_message =
      some "No changes needed" ∧
    (applyFix [] (some "main.tf") (fun _ s => s) "main.tf" rbP1 fs0).2.1 = fs0 ∧
    ∀ p c, FileOp.write p c ∉ (applyFix [] (some "main.tf") (fun _ s => s) "main.tf" rbP1 fs0).2.2 :=
  (C5_noop_writes_avoided [] (some "main.tf") (fun _ s => s) "main.tf" rbP1 fs0).1
    "main.tf" "resource \"x\" \x7b\x7d" rfl rfl rfl rfl rfl

/-- Claim C2 (code bug): the deploy-gating claim is the source's clear
intent (the spec states it as an invariant), but `main.py` never imports
`Severity`, so whenever the verification rescan returns a non-empty
finding list the Phase-3 HIGH/CRITICAL comprehension raises `NameError`,
the pipeline's except arm marks the run "failed" with that error, and no
remaining count, deployment or `deployment_skipped` reason is ever
recorded — contradicting the claim's nonzero-count conjunct.  This
theorem evaluates the embedded code at the failing input: one initial
HIGH finding, the fixer enabled and reporting one successful fix, and a
rescan still returning one finding. -/
theorem C2_deploy_gating_severity_name_error :
    (process_deployment true true [{ severity := .HIGH }] (fun _ => 1)
        [{ severity := .LOW }] "dep").status = "failed" ∧
    (process_deployment true true [{ severity := .HIGH }] (fun _ => 1)
        [{ severity := .LOW }] "dep").error =
      some "name 'Severity' is not defined" ∧
    (process_deployment true true [{ severity := .HIGH }] (fun _ => 1)
        [{ severity := .LOW }] "dep").deploy_invoked = false ∧
    (process_deployment true true [{ severity := .HIGH }] (fun _ => 1)
        [{ severity := .LOW }] "dep").deployment = none ∧
    (process_deployment true true [{ severity := .HIGH }] (fun _ => 1)
        [{ severity := .LOW }] "dep").remaining_findings = none ∧
    (process_deployment true true [{ severity := .HIGH }] (fun _ => 1)
        [{ severity := .LOW }] "dep").deployment_skipped = none :=
  ⟨rfl, rfl, rfl, rfl, rfl, rfl⟩

/-!
## Depth preservation (the termination argument of the substitution,
stated standalone)
-/

/-- Substituting a parameter value preserves nesting depth. -/
theorem pdepth_substParamValue (env : Strg → Option Strg) (v : PVal) :
    pdepth (substParamValue env v) = pdepth v := by
  cases v with
  | str s =>
    simp only [substParamValue]
    split <;> simp [pdepth]
  | num n => simp [substParamValue]
  | boolean b => simp [substParamValue]
  | nil => simp [substParamValue]
  | arr items => simp [substParamValue]
  | dict entries => simp [substParamValue]

/-- Substituting a params dict preserves nesting depth. -/
theorem entriesDepth_substParams (env : Strg → Option Strg)
    (pentries : List (Strg × PVal)) :
    entriesDepth (substParams env pentries) = entriesDepth pentries := by
  induction pentries with
  | nil => simp [substParams]
  | cons hd tl ih =>
    obtain ⟨k, v⟩ := hd
    have ih2 := ih
    simp only [substParams] at ih2
    simp only [substParams, List.map_cons, entriesDepth, pdepth_substParamValue, ih2]

/-- Replacing a key's value by one of equal depth preserves the entries
depth. -/
theorem entriesDepth_setKey (k : Strg) (newv : PVal) (l : List (Strg × PVal))
    (h : ∀ old, assocL k l = some old → pdepth newv = pdepth old) :
    entriesDepth (setKey k newv l) = entriesDepth l := by
  induction l with
  | nil => rfl
  | cons hd tl ih =>
    obtain ⟨a, b⟩ := hd
    by_cases hak : a = k
    · subst hak
      rw [setKey, if_pos rfl]
      have hb := h b (by rw [assocL, if_pos rfl])
      simp [entriesDepth, hb]
    · rw [setKey, if_neg hak]
      simp only [entriesDepth]
      rw [ih]
      intro old hold
      exact h old (by rw [assocL, if_neg (fun hka => hak hka.symm)]; exact hold)

/-- The params-substitution step preserves the entries depth. -/
theorem entriesDepth_paramsSubst (env : Strg → Option Strg)
    (ventries : List (Strg × PVal)) :
    entriesDepth (paramsSubst env ventries) = entriesDepth ventries := by
  unfold paramsSubst
  cases hl : assocL paramsKeyL ventries with
  | none => rfl
  | some v =>
    cases v with
    | dict pentries =>
      apply entriesDepth_setKey
      intro old hold
      rw [hl] at hold
      injection hold with h2
      subst h2
      simp [pdepth, entriesDepth_substParams]
    | str s => rfl
    | num n => rfl
    | boolean b => rfl
    | nil => rfl
    | arr items => rfl

/-!
## Claims about placeholder substitution
-/

/-- Helper: the placeholder form passes the startswith/endswith check of
`_substitute_env_vars`. -/
theorem placeholder_passes_check (name : Strg) :
    (['$', '\x7b'].isPrefixOf (placeholderOf name) &&
      ['\x7d'].isSuffixOf (placeholderOf name)) = true := by
  rw [Bool.and_eq_true, List.isPrefixOf_iff_prefix, List.isSuffixOf_iff_suffix]
  constructor
  · exact ⟨name ++ ['\x7d'], rfl⟩
  · exact ⟨['$', '\x7b'] ++ name, by simp [placeholderOf]⟩

/-- Helper: the `value[2:-1]` slice recovers the placeholder's name. -/
theorem placeholder_extract (name : Strg) :
    ((placeholderOf name).drop 2).dropLast = name := by
  show (('$' :: '\x7b' :: (name ++ ['\x7d'])).drop 2).dropLast = name
  simp

/-- Helper: any string passing the startswith/endswith check is exactly
a placeholder around its `[2:-1]` slice. -/
theorem placeholder_form_of_check (s : Strg)
    (h : (['$', '\x7b'].isPrefixOf s && ['\x7d'].isSuffixOf s) = true) :
    s = placeholderOf ((s.drop 2).dropLast) := by
  rw [Bool.and_eq_true, List.isPrefixOf_iff_prefix, List.isSuffixOf_iff_suffix] at h
  obtain ⟨⟨m, hm⟩, t, ht⟩ := h
  subst hm
  rcases t with _ | ⟨c1, t⟩
  · simp at ht
  · rcases t with _ | ⟨c2, t⟩
    · simp at ht
    · have ht2 : c1 :: c2 :: (t ++ ['\x7d']) = '$' :: '\x7b' :: m := ht
      obtain ⟨h1, h2, h3⟩ : c1 = '$' ∧ c2 = '\x7b' ∧ t ++ ['\x7d'] = m := by
        simpa using ht2
      subst h1
      subst h2
      subst h3
      simp [placeholderOf]

/-- Helper: key lookup after the dict loop is the original lookup mapped
through the dict-loop body. -/
theorem assocL_substTop (env : Strg → Option Strg) (k : Strg)
    (cat : List (Strg × PVal)) :
    assocL k (substTop env cat) = (assocL k cat).map (substVal env) := by
  induction cat with
  | nil => simp [substTop, assocL]
  | cons hd tl ih =>
    obtain ⟨a, b⟩ := hd
    by_cases hk : k = a
    · simp [substTop, assocL, hk]
    · simp [substTop, assocL, hk, ih]

/-- Helper: looking up a key after replacing its binding yields the new
value (when the key was bound). -/
theorem assocL_setKey_self (k : Strg) (newv : PVal) (l : List (Strg × PVal))
    (h : (assocL k l).isSome = true) :
    assocL k (setKey k newv l) = some newv := by
  induction l with
  | nil => simp [assocL] at h
  | cons hd tl ih =>
    obtain ⟨a, b⟩ := hd
    by_cases hak : a = k
    · subst hak
      simp [setKey, assocL]
    · have hka : ¬ k = a := fun hh => hak hh.symm
      rw [assocL, if_neg hka] at h
      rw [setKey, if_neg hak, assocL, if_neg hka]
      exact ih h

/-- Helper: a successful lookup in an all-non-dict association list
yields a non-dict value. -/
theorem assocL_nonDict (k : Strg) (l : List (Strg × PVal)) (v : PVal)
    (hall : ∀ q ∈ l, pvalNonDict q.2 = true) (h : assocL k l = some v) :
    pvalNonDict v = true := by
  induction l with
  | nil => simp [assocL] at h
  | cons hd tl ih =>
    obtain ⟨a, b⟩ := hd
    by_cases hka : k = a
    · rw [assocL, if_pos hka] at h
      injection h with h2
      subst h2
      exact hall (a, b) (List.mem_cons_self _ _)
    · rw [assocL, if_neg hka] at h
      exact ih (fun q hq => hall q (List.mem_cons_of_mem _ hq)) h

/-- Helper: substituting a parameter value never produces a dict from a
non-dict. -/
theorem substParamValue_nonDict (env : Strg → Option Strg) (v : PVal)
    (h : pvalNonDict v = true) :
    pvalNonDict (substParamValue env v) = true := by
  cases v with
  | str s =>
    simp only [substParamValue]
    split <;> simp [pvalNonDict]
  | dict e => simp [pvalNonDict] at h
  | num n => simpa [substParamValue] using h
  | boolean b => simpa [substParamValue] using h
  | nil => simpa [substParamValue] using h
  | arr i => simpa [substParamValue] using h

/-- Helper: the params step leaves an all-non-dict dict unchanged. -/
theorem paramsSubst_nonDict (env : Strg → Option Strg) (l : List (Strg × PVal))
    (hall : ∀ q ∈ l, pvalNonDict q.2 = true) :
    paramsSubst env l = l := by
  unfold paramsSubst
  cases hl : assocL paramsKeyL l with
  | none => rfl
  | some v =>
    have hv := assocL_nonDict _ _ _ hall hl
    cases v with
    | dict p => simp [pvalNonDict] at hv
    | str s => rfl
    | num n => rfl
    | boolean b => rfl
    | nil => rfl
    | arr i => rfl

/-- Helper: the dict-loop body leaves a non-dict value unchanged. -/
theorem substVal_nonDict (env : Strg → Option Strg) (v : PVal)
    (h : pvalNonDict v = true) :
    substVal env v = v := by
  cases v with
  | dict e => simp [pvalNonDict] at h
  | str s => simp [substVal]
  | num n => simp [substVal]
  | boolean b => simp [substVal]
  | nil => simp [substVal]
  | arr i => simp [substVal]

/-- Helper: the dict loop leaves an all-non-dict dict unchanged. -/
theorem substTop_nonDict (env : Strg → Option Strg) (l : List (Strg × PVal))
    (hall : ∀ q ∈ l, pvalNonDict q.2 = true) :
    substTop env l = l := by
  induction l with
  | nil => simp [substTop]
  | cons hd tl ih =>
    obtain ⟨a, b⟩ := hd
    rw [substTop]
    rw [substVal_nonDict env b (hall (a, b) (List.mem_cons_self _ _))]
    rw [ih (fun q hq => hall q (List.mem_cons_of_mem _ hq))]

/-- Helper: substituted params of an all-non-dict params dict are again
all non-dict. -/
theorem substParams_nonDict (env : Strg → Option Strg) (pentries : List (Strg × PVal))
    (hall : ∀ q ∈ pentries, pvalNonDict q.2 = true) :
    ∀ q ∈ substParams env pentries, pvalNonDict q.2 = true := by
  intro q hq
  simp only [substParams, List.mem_map] at hq
  obtain ⟨p, hp, hpq⟩ := hq
  subst hpq
  exact substParamValue_nonDict env p.2 (hall p hp)

/-- Claim C8: placeholder resolution at load time.  For the substitution
`_substitute_env_vars` performs while the catalog is loaded:
(1) a string parameter value of the exact form `${NAME}` is replaced by
the environment value of `NAME` when that variable is set;
(2) it is left as the literal placeholder string when `NAME` is unset
(no error is possible: the embedding is a total function);
(3) a string value not of that exact form is left unchanged (and a
non-string value is left unchanged);
(4) at the catalog level: for every runbook dict bound at key `k` whose
`params` entry is a dict of non-dict parameter values, the loaded
catalog (`substEnvVars` on the catalog dict, whose top level is
`substTop`) binds at `k` a dict whose `params` entry is exactly the
pointwise substitution of the original parameters. -/
theorem C8_placeholder_resolution (env : Strg → Option Strg) (name s : Strg) (v : PVal) :
    (∀ val, env name = some val →
      substParamValue env (.str (placeholderOf name)) = .str val) ∧
    (env name = none →
      substParamValue env (.str (placeholderOf name)) = .str (placeholderOf name)) ∧
    ((∀ n : Strg, s ≠ placeholderOf n) → substParamValue env (.str s) = .str s) ∧
    ((∀ t : Strg, v ≠ .str t) → substParamValue env v = v) ∧
    (∀ (cat : List (Strg × PVal)) (k : Strg) (ventries pentries : List (Strg × PVal)),
      assocL k cat = some (.dict ventries) →
      assocL paramsKeyL ventries = some (.dict pentries) →
      (∀ q ∈ pentries, pvalNonDict q.2 = true) →
      substEnvVars env (.dict cat) = .dict (substTop env cat) ∧
      ∃ ventries2, assocL k (substTop env cat) = some (.dict ventries2) ∧
        assocL paramsKeyL ventries2 = some (.dict (substParams env pentries))) := by
  refine ⟨?_, ?_, ?_, ?_, ?_⟩
  · intro val hval
    rw [substParamValue]
    rw [if_pos (placeholder_passes_check name), placeholder_extract, hval]
    rfl
  · intro hval
    rw [substParamValue]
    rw [if_pos (placeholder_passes_check name), placeholder_extract, hval]
    rfl
  · intro hnot
    rw [substParamValue]
    by_cases hc : (['$', '\x7b'].isPrefixOf s && ['\x7d'].isSuffixOf s) = true
    · exact absurd (placeholder_form_of_check s hc) (hnot _)
    · rw [if_neg hc]
  · intro hnot
    cases v with
    | str t => exact absurd rfl (hnot t)
    | num n => rfl
    | boolean b => rfl
    | nil => rfl
    | arr i => rfl
    | dict e => rfl
  · intro cat k ventries pentries hcat hp hall
    have h3 : paramsSubst env ventries =
        setKey paramsKeyL (.dict (substParams env pentries)) ventries := by
      unfold paramsSubst
      rw [hp]
    have h1 : assocL k (substTop env cat) = some (substVal env (.dict ventries)) := by
      rw [assocL_substTop, hcat]
      rfl
    have h2 : substVal env (.dict ventries) =
        .dict (substTop env (paramsSubst env ventries)) := by
      rw [substVal, substEnvVars]
    refine ⟨by rw [substEnvVars], substTop env (paramsSubst env ventries),
      by rw [h1, h2], ?_⟩
    rw [assocL_substTop]
    have h4 : assocL paramsKeyL (paramsSubst env ventries) =
        some (.dict (substParams env pentries)) := by
      rw [h3]
      apply assocL_setKey_self
      rw [hp]
      rfl
    rw [h4]
    have hall2 := substParams_nonDict env pentries hall
    have h5 : substVal env (.dict (substParams env pentries)) =
        .dict (substParams env pentries) := by
      rw [substVal, substEnvVars, paramsSubst_nonDict env _ hall2,
        substTop_nonDict env _ hall2]
    simp [h5]

/-- Witness for C8: the parameter value `${AC}` resolves to the
environment value of `AC`. -/
theorem C8_placeholder_resolution_witness :
    substParamValue env0 (.str (placeholderOf ['A', 'C'])) =
      .str ['1', '0', '.', '0', '.', '0', '.', '0', '/', '8'] :=
  (C8_placeholder_resolution env0 ['A', 'C'] [] PVal.nil).1 _ rfl
